import Mathlib

/-!
Formal model (shallow embedding) of `src/app.py`, the "Clientes x Frentes"
dashboard, together with proofs about its metrics-aggregation and filtering
pipeline.

Modelling conventions:
* A pandas cell that may be `NaN` is an `Option`; `none` models a missing
  value (`NaN`), and `some ""` is an *empty string*, which pandas treats as a
  present value, distinct from `NaN`.
* A data frame column of rows is a `List`; the raw table has the fixed schema
  given by `RawRow` (the four required columns of `REQUIRED_COLS`).
* `groupby` enumerates the distinct group keys; no claim below depends on the
  order in which the grouped rows are emitted (pandas sorts the keys; the
  spec explicitly leaves row order to presentation), so distinct keys are
  enumerated with `List.dedup`.
* Integer-valued columns are `Int`; `.max()` with the pandas default
  skip-missing behaviour is `colMax` applied after dropping `none`s.
-/

/-- One row of the raw table, with the four required columns of `app.py`:
`client_name` is column "Empresa relacionada - Nomes", `business_front` is
"Frente de Negócio", `primary_product` is "Produto Principal", and
`total_products_reported` is "N_produtos_total". -/
structure RawRow where
  client_name : String
  business_front : Option String
  primary_product : Option String
  total_products_reported : Option Int
deriving DecidableEq

/-- One row of the output of `ensure_metrics`: a `RawRow` plus the two
broadcast-joined per-client aggregate columns `N_frentes_calc` and
`N_produtos_total_calc` (each `Option` because a left join can in principle
leave a hole, and the products maximum of an all-missing group is `NaN`). -/
structure DerivedRow where
  client_name : String
  business_front : Option String
  primary_product : Option String
  total_products_reported : Option Int
  N_frentes_calc : Option Int
  N_produtos_total_calc : Option Int
deriving DecidableEq

/-- One row of the output of `client_table`: one row per client, with both
metric columns cast to integer (`astype(int)` in the source), hence total
`Int` fields — no missing values can be represented here. -/
structure ClientRow where
  client_name : String
  N_frentes : Int
  N_produtos : Int
deriving DecidableEq

/-- A loaded data frame as seen by the load handlers: its column names
(inspected by `validate_df`) and its rows. -/
structure RawDf where
  columns : List String
  rows : List RawRow
deriving DecidableEq

/-- REQUIRED_COLS of `app.py` (lines 7-12). -/
def REQUIRED_COLS : List String :=
  ["Empresa relacionada - Nomes",
   "Frente de Negócio",
   "Produto Principal",
   "N_produtos_total"]

/-- Model of `validate_df` (app.py lines 27-30):
`missing = [c for c in REQUIRED_COLS if c not in df.columns]`, and if
`missing` is non-empty a `ValueError` whose message carries the whole
`missing` list is raised.  The raised error is modelled as `Except.error`
carrying that list; success returns `()` (Python `None`). -/
def validate_df (columns : List String) : Except (List String) Unit :=
  let missing := REQUIRED_COLS.filter (fun c => !(columns.contains c))
  if missing.isEmpty then Except.ok () else Except.error missing

/-! Model of the module-level Python name environment, needed because
`load_default_df` is defined twice in `app.py` (lines 17-19 and 21-22): the
first definition binds `DEFAULT_FILE` and `DEFAULT_SHEET` as *locals* of a
function that is immediately shadowed, so at module level those names are
never bound.  The second (surviving) definition reads the free names
`DEFAULT_FILE` and `DEFAULT_SHEET`, which Python resolves against the
locals of the function, then the module globals, then builtins. -/

/-- A Python value, to the granularity the name-resolution model needs. -/
inductive PyValue where
  | strV (s : String)
  | listV (l : List String)
  | funcV (n : String)
  | moduleV (n : String)
deriving DecidableEq

/-- The names bound at module level in `app.py` by the time line 99 runs:
the three imports and the six `def`s, plus `REQUIRED_COLS`.  `DEFAULT_FILE`
and `DEFAULT_SHEET` are absent: they were only ever locals of the first,
shadowed, definition of `load_default_df`. -/
def moduleGlobalEnv : List (String × PyValue) :=
  [("pd", PyValue.moduleV "pandas"),
   ("st", PyValue.moduleV "streamlit"),
   ("px", PyValue.moduleV "plotly.express"),
   ("REQUIRED_COLS", PyValue.listV REQUIRED_COLS),
   ("load_default_df", PyValue.funcV "load_default_df"),
   ("load_uploaded_df", PyValue.funcV "load_uploaded_df"),
   ("validate_df", PyValue.funcV "validate_df"),
   ("ensure_metrics", PyValue.funcV "ensure_metrics"),
   ("client_table", PyValue.funcV "client_table"),
   ("bar_with_labels", PyValue.funcV "bar_with_labels")]

/-- Python name resolution: locals, then module globals, then `NameError`. -/
def resolveName (locals : List (String × PyValue)) (n : String) :
    Except String PyValue :=
  match locals.lookup n with
  | some v => Except.ok v
  | none =>
    match moduleGlobalEnv.lookup n with
    | some v => Except.ok v
    | none => Except.error ("NameError: name " ++ n ++ " is not defined")

/-- Model of the second (surviving) definition of `load_default_df`
(app.py lines 21-22): its body `pd.read_excel(DEFAULT_FILE,
sheet_name=DEFAULT_SHEET)` first evaluates the two argument names with an
empty local scope; on success it would hand the resulting file name and
sheet name to the Excel reader, so the model returns that pair. -/
def load_default_df : Except String (String × String) := do
  let f ← resolveName [] "DEFAULT_FILE"
  let s ← resolveName [] "DEFAULT_SHEET"
  match f, s with
  | PyValue.strV a, PyValue.strV b => Except.ok (a, b)
  | _, _ => Except.error "TypeError: read_excel expects str paths"

/-! Pandas-style column minimum and maximum (`skipna` handled by the caller,
who drops `none` cells first): `max()` of an empty column is `NaN`. -/

/-- Maximum of an integer column; `none` on an empty column. -/
def colMax (l : List Int) : Option Int :=
  match l with
  | [] => none
  | a :: as => some (as.foldl max a)

/-- Minimum of an integer column; `none` on an empty column. -/
def colMin (l : List Int) : Option Int :=
  match l with
  | [] => none
  | a :: as => some (as.foldl min a)

/-! The Metrics Deriver, `ensure_metrics` (app.py lines 32-54). -/

/-- Rows of the raw table belonging to one client (one `groupby` group). -/
def clientRows (rows : List RawRow) (c : String) : List RawRow :=
  rows.filter (fun r => r.client_name == c)

/-- Model of `groupby("Empresa relacionada - Nomes")["Frente de Negócio"].nunique()`
for one group: the number of distinct non-missing `business_front` cells on
the rows of the client.  `nunique` skips `NaN` but counts every present value —
including the empty string — as a value. -/
def distinctFronts (rows : List RawRow) (c : String) : Int :=
  (((clientRows rows c).filterMap RawRow.business_front).dedup.length : Int)

/-- Model of `groupby("Empresa relacionada - Nomes")["N_produtos_total"].max()`
for one group: pandas `max` skips missing cells and yields `NaN` when the
whole group is missing. -/
def prodMax (rows : List RawRow) (c : String) : Option Int :=
  colMax ((clientRows rows c).filterMap RawRow.total_products_reported)

/-- The distinct clients of the raw table (the `groupby` keys). -/
def rawClients (rows : List RawRow) : List String :=
  (rows.map RawRow.client_name).dedup

/-- The per-client fronts table `fr` of `ensure_metrics`: one row per
distinct client with its distinct-fronts count (`N_frentes_calc`). -/
def frTable (rows : List RawRow) : List (String × Int) :=
  (rawClients rows).map (fun c => (c, distinctFronts rows c))

/-- The per-client products table `pr` of `ensure_metrics`: one row per
distinct client with its products maximum (`N_produtos_total_calc`). -/
def prTable (rows : List RawRow) : List (String × Option Int) :=
  (rawClients rows).map (fun c => (c, prodMax rows c))

/-- Model of `ensure_metrics` (app.py lines 32-54): the two `groupby`
aggregates are left-joined back onto every raw row by client name
(`merge(..., how="left")`), broadcasting the per-client values.  A key
absent from the joined table would leave `NaN`, as would a stored `NaN`
products maximum — both collapse to `none` via `Option.join`. -/
def ensure_metrics (rows : List RawRow) : List DerivedRow :=
  rows.map (fun r =>
    { client_name := r.client_name
      business_front := r.business_front
      primary_product := r.primary_product
      total_products_reported := r.total_products_reported
      N_frentes_calc := (frTable rows).lookup r.client_name
      N_produtos_total_calc := ((prTable rows).lookup r.client_name).join })

/-! The Client Aggregator, `client_table` (app.py lines 56-74). -/

/-- Rows of the derived table belonging to one client. -/
def derivedClientRows (rows : List DerivedRow) (c : String) : List DerivedRow :=
  rows.filter (fun r => r.client_name == c)

/-- Model of `pd.to_numeric(col, errors="coerce")` on a column whose cells
are already numeric or missing: numeric cells stay, `NaN` stays `NaN`. -/
def to_numeric_coerce (v : Option Int) : Option Int := v

/-- The `N_frentes` aggregate of `client_table` for one client: `max` of the
broadcast `N_frentes_calc` column over the rows of the client (missing cells
skipped), then coerced with `to_numeric`. -/
def aggFrentes (rows : List DerivedRow) (c : String) : Option Int :=
  to_numeric_coerce
    (colMax ((derivedClientRows rows c).filterMap DerivedRow.N_frentes_calc))

/-- The `N_produtos` aggregate of `client_table` for one client. -/
def aggProdutos (rows : List DerivedRow) (c : String) : Option Int :=
  to_numeric_coerce
    (colMax ((derivedClientRows rows c).filterMap DerivedRow.N_produtos_total_calc))

/-- Model of `client_table` (app.py lines 56-74): group the derived table by
client, aggregate both metric columns with `max`, coerce to numeric, drop
the clients with a missing value in either metric (`dropna`), and cast both
columns to integer (`astype(int)`, reflected in the `Int` fields of
`ClientRow`). -/
def client_table (rows : List DerivedRow) : List ClientRow :=
  ((rows.map DerivedRow.client_name).dedup).filterMap (fun c =>
    match aggFrentes rows c, aggProdutos rows c with
    | some nf, some np =>
      some { client_name := c, N_frentes := nf, N_produtos := np }
    | _, _ => none)

/-! The Range & Set Filter (app.py lines 147-148 and 187-201). -/

/-- The two metric views of the sidebar radio button (app.py line 135). -/
inductive Mode where
  | frentes
  | produtos
deriving DecidableEq

/-- The metric column selected by the mode. -/
def metricVal (m : Mode) (r : ClientRow) : Int :=
  match m with
  | Mode.frentes => r.N_frentes
  | Mode.produtos => r.N_produtos

/-- Model of `Series.between(lo, hi)`: inclusive on both ends. -/
def inBetween (lo hi v : Int) : Bool :=
  decide (lo ≤ v) && decide (v ≤ hi)

/-- Model of the slider seeds (app.py lines 147-148): the minimum of the
selected metric over the full client table. -/
def metricMin (m : Mode) (clients : List ClientRow) : Option Int :=
  colMin (clients.map (metricVal m))

/-- Model of the slider seeds (app.py lines 147-148): the maximum of the
selected metric over the full client table. -/
def metricMax (m : Mode) (clients : List ClientRow) : Option Int :=
  colMax (clients.map (metricVal m))

/-- Model of the filter application (app.py lines 187-197): first the range
filter `between(metric_range[0], metric_range[1])` on the column selected by
the mode, then — only when the client list is non-empty, Python truthiness of
`st.session_state.client_list` — the `isin(client_list)` set filter. -/
def applyFilters (clients : List ClientRow) (m : Mode) (lo hi : Int)
    (clientList : List String) : List ClientRow :=
  let base :=
    match m with
    | Mode.frentes => clients.filter (fun r => inBetween lo hi r.N_frentes)
    | Mode.produtos => clients.filter (fun r => inBetween lo hi r.N_produtos)
  if clientList.isEmpty then base
  else base.filter (fun r => clientList.contains r.client_name)

/-! The presentation flow after the filters (app.py lines 140-281). -/

/-- Ascending insertion of an integer into a sorted list. -/
def insertAscInt (x : Int) : List Int → List Int
  | [] => [x]
  | y :: ys => if x ≤ y then x :: y :: ys else y :: insertAscInt x ys

/-- Ascending insertion sort on integers (used to model `sort_index()`). -/
def sortAscInt : List Int → List Int
  | [] => []
  | x :: xs => insertAscInt x (sortAscInt xs)

/-- Descending insertion of a client row by a metric. -/
def insertDescBy (f : ClientRow → Int) (x : ClientRow) :
    List ClientRow → List ClientRow
  | [] => [x]
  | y :: ys => if f y < f x then x :: y :: ys else y :: insertDescBy f x ys

/-- Descending sort of client rows by a metric (used to model
`sort_values(value_col, ascending=False)`). -/
def sortDescBy (f : ClientRow → Int) : List ClientRow → List ClientRow
  | [] => []
  | x :: xs => insertDescBy f x (sortDescBy f xs)

/-- Model of `value_counts().sort_index()`: one row per distinct value in
ascending order, with the number of occurrences. -/
def valueCounts (vals : List Int) : List (Int × Nat) :=
  (sortAscInt vals.dedup).map (fun v => (v, (vals.filter (fun x => x == v)).length))

/-- The `st.error` message of app.py line 144. -/
def noValidClientsMsg : String :=
  "Não há clientes válidos para analisar (verifique a base)."

/-- The `st.warning` message of app.py line 200. -/
def emptyFilterMsg : String :=
  "Com esses filtros, não há clientes para exibir. Ajuste a faixa ou a lista."

/-- A user-visible rendering effect of the main page.  `errorStop` is
`st.error` followed by `st.stop()`, `warningStop` is `st.warning` followed
by `st.stop()`; the remaining constructors are the treemap, the KPI row, the
two distribution bar charts, and the row-level table. -/
inductive Effect where
  | errorStop (msg : String)
  | warningStop (msg : String)
  | treemap (view : List ClientRow) (valueCol : String)
  | kpis (total c2f c2p : Nat) (mf mp : Int)
  | barChart (dist : List (Int × Nat)) (xlabel : String)
  | dataTable (rows : List DerivedRow)
deriving DecidableEq

/-- Model of the main-page flow of app.py lines 140-281, starting from the
cached derived table `df`: build the client table; stop with an error if it
is empty; apply the range and set filters; stop with a warning if the result
is empty; otherwise render the treemap over the top-N view, the KPI row, the
two distribution charts, and the row-level table restricted (inner join on
client name) to the filtered clients.  The function is total: the empty
branch raises nothing. -/
def renderApp (df : List DerivedRow) (m : Mode) (lo hi : Int)
    (clientList : List String) (topN : Nat) : List Effect :=
  let clients := client_table df
  if clients.isEmpty then [Effect.errorStop noValidClientsMsg]
  else
    let base := applyFilters clients m lo hi clientList
    if base.isEmpty then [Effect.warningStop emptyFilterMsg]
    else
      let valueCol :=
        match m with
        | Mode.frentes => "N_frentes"
        | Mode.produtos => "N_produtos"
      let view := (sortDescBy (metricVal m) base).take topN
      let mf := (colMax (base.map ClientRow.N_frentes)).getD 0
      let mp := (colMax (base.map ClientRow.N_produtos)).getD 0
      [Effect.treemap view valueCol,
       Effect.kpis base.length
         (base.filter (fun r => decide (2 ≤ r.N_frentes))).length
         (base.filter (fun r => decide (2 ≤ r.N_produtos))).length mf mp,
       Effect.barChart (valueCounts (base.map ClientRow.N_frentes)) "Nº de frentes",
       Effect.barChart (valueCounts (base.map ClientRow.N_produtos)) "Nº de produtos",
       Effect.dataTable
         (df.filter (fun r => (base.map ClientRow.client_name).contains r.client_name))]

/-! Session state and the load handlers (app.py lines 98-132). -/

/-- The session state the load handlers mutate: the cached derived table
`st.session_state.df_cached` and the client list `st.session_state.client_list`. -/
structure SessionState where
  df_cached : List DerivedRow
  client_list : List String
deriving DecidableEq

/-- An error aborting a load attempt: a `NameError` from name resolution, a
reader failure, or the schema `ValueError` of `validate_df` (carrying the
missing columns). -/
inductive LoadError where
  | nameError (msg : String)
  | readError (msg : String)
  | schemaError (missing : List String)
deriving DecidableEq

/-- Model of the session-state initialisation (app.py lines 98-101):
`df0 = load_default_df()`, `validate_df(df0)`,
`st.session_state.df_cached = ensure_metrics(df0)`.  `readExcel` stands for
`pd.read_excel` applied to a file name and sheet name. -/
def initSession (readExcel : String → String → Except String RawDf) :
    Except LoadError SessionState :=
  match load_default_df with
  | Except.error e => Except.error (LoadError.nameError e)
  | Except.ok fs =>
    match readExcel fs.1 fs.2 with
    | Except.error e => Except.error (LoadError.readError e)
    | Except.ok df0 =>
      match validate_df df0.columns with
      | Except.error missing => Except.error (LoadError.schemaError missing)
      | Except.ok _ =>
        Except.ok { df_cached := ensure_metrics df0.rows, client_list := [] }

/-- Model of the "Usar base padrão" handler (app.py lines 120-125): on any
error before the final assignments the session state is returned untouched
(the exception propagates before `st.session_state.df_cached` is written);
on success the cached table is replaced and the client list cleared. -/
def resetHandler (readExcel : String → String → Except String RawDf)
    (s : SessionState) : SessionState × Option LoadError :=
  match load_default_df with
  | Except.error e => (s, some (LoadError.nameError e))
  | Except.ok fs =>
    match readExcel fs.1 fs.2 with
    | Except.error e => (s, some (LoadError.readError e))
    | Except.ok df0 =>
      match validate_df df0.columns with
      | Except.error missing => (s, some (LoadError.schemaError missing))
      | Except.ok _ =>
        ({ df_cached := ensure_metrics df0.rows, client_list := [] }, none)

/-- Model of the "Usar base enviada" handler (app.py lines 127-132):
`loaded` is the outcome of `load_uploaded_df(uploaded)`; `validate_df` runs
before the cached table is assigned, so on any failure the session state is
returned untouched. -/
def uploadHandler (loaded : Except String RawDf) (s : SessionState) :
    SessionState × Option LoadError :=
  match loaded with
  | Except.error e => (s, some (LoadError.readError e))
  | Except.ok dfu =>
    match validate_df dfu.columns with
    | Except.error missing => (s, some (LoadError.schemaError missing))
    | Except.ok _ =>
      ({ df_cached := ensure_metrics dfu.rows, client_list := [] }, none)

/-! Helper lemmas. -/

/-- Folding `max` never goes below the initial accumulator. -/
lemma foldl_max_init_le (as : List Int) : ∀ a : Int, a ≤ as.foldl max a := by
  induction as with
  | nil => intro a; exact le_refl a
  | cons b bs ih =>
    intro a
    calc a ≤ max a b := le_max_left a b
    _ ≤ bs.foldl max (max a b) := ih (max a b)

/-- Every member of the column is below the `max` fold. -/
lemma foldl_max_le_of_mem {as : List Int} {x : Int} (hx : x ∈ as) :
    ∀ a : Int, x ≤ as.foldl max a := by
  induction as with
  | nil => simp at hx
  | cons b bs ih =>
    intro a
    rcases List.mem_cons.mp hx with h | h
    · subst h
      calc x ≤ max a x := le_max_right a x
      _ ≤ bs.foldl max (max a x) := foldl_max_init_le bs (max a x)
    · exact ih h (max a b)

/-- `colMax` bounds every member of the column. -/
lemma colMax_ge_of_mem {l : List Int} {m x : Int} (h : colMax l = some m)
    (hx : x ∈ l) : x ≤ m := by
  cases l with
  | nil => simp at hx
  | cons a as =>
    have hm : m = as.foldl max a := by
      simpa [colMax] using h.symm
    subst hm
    rcases List.mem_cons.mp hx with h1 | h1
    · subst h1; exact foldl_max_init_le as x
    · exact foldl_max_le_of_mem h1 a

/-- Folding `min` never goes above the accumulator. -/
lemma foldl_min_le_init (as : List Int) : ∀ a : Int, as.foldl min a ≤ a := by
  induction as with
  | nil => intro a; exact le_refl a
  | cons b bs ih =>
    intro a
    calc bs.foldl min (min a b) ≤ min a b := ih (min a b)
    _ ≤ a := min_le_left a b

/-- The `min` fold is below every member of the column. -/
lemma foldl_min_le_of_mem {as : List Int} {x : Int} (hx : x ∈ as) :
    ∀ a : Int, as.foldl min a ≤ x := by
  induction as with
  | nil => simp at hx
  | cons b bs ih =>
    intro a
    rcases List.mem_cons.mp hx with h | h
    · subst h
      calc bs.foldl min (min a x) ≤ min a x := foldl_min_le_init bs (min a x)
      _ ≤ x := min_le_right a x
    · exact ih h (min a b)

/-- `colMin` is below every member of the column. -/
lemma colMin_le_of_mem {l : List Int} {m x : Int} (h : colMin l = some m)
    (hx : x ∈ l) : m ≤ x := by
  cases l with
  | nil => simp at hx
  | cons a as =>
    have hm : m = as.foldl min a := by
      simpa [colMin] using h.symm
    subst hm
    rcases List.mem_cons.mp hx with h1 | h1
    · subst h1; exact foldl_min_le_init as x
    · exact foldl_min_le_of_mem h1 a

/-- Looking a key up in the graph of a function over a key list. -/
lemma lookup_map_graph {β : Type _} (f : String → β) (keys : List String)
    (x : String) (hx : x ∈ keys) :
    (keys.map (fun c => (c, f c))).lookup x = some (f x) := by
  induction keys with
  | nil => simp at hx
  | cons c ks ih =>
    by_cases h : x = c
    · subst h
      simp [List.lookup]
    · have hbeq : (x == c) = false := by
        simp [h]
      have hx2 : x ∈ ks := by
        rcases List.mem_cons.mp hx with h1 | h1
        · exact absurd h1 h
        · exact h1
      simp [List.lookup, hbeq, ih hx2]

/-- Every row of `ensure_metrics` carries the distinct-fronts count of its
client as `N_frentes_calc`. -/
lemma ensure_metrics_frentes {rows : List RawRow} {r : DerivedRow}
    (h : r ∈ ensure_metrics rows) :
    r.N_frentes_calc = some (distinctFronts rows r.client_name) := by
  rcases List.mem_map.mp h with ⟨a, ha, rfl⟩
  show (frTable rows).lookup a.client_name = some (distinctFronts rows a.client_name)
  unfold frTable
  exact lookup_map_graph _ _ _ (by
    unfold rawClients
    exact List.mem_dedup.mpr (List.mem_map_of_mem RawRow.client_name ha))

/-- Every row of `ensure_metrics` carries the products maximum of its client
as `N_produtos_total_calc`. -/
lemma ensure_metrics_produtos {rows : List RawRow} {r : DerivedRow}
    (h : r ∈ ensure_metrics rows) :
    r.N_produtos_total_calc = prodMax rows r.client_name := by
  rcases List.mem_map.mp h with ⟨a, ha, rfl⟩
  show ((prTable rows).lookup a.client_name).join = prodMax rows a.client_name
  unfold prTable
  rw [lookup_map_graph _ _ _ (by
    unfold rawClients
    exact List.mem_dedup.mpr (List.mem_map_of_mem RawRow.client_name ha))]
  rfl

/-- The distinct-fronts count is invariant under permuting the table. -/
lemma distinctFronts_perm {rows₁ rows₂ : List RawRow} (h : rows₁.Perm rows₂)
    (c : String) : distinctFronts rows₁ c = distinctFronts rows₂ c := by
  have h1 := h.filter (fun r => r.client_name == c)
  have h2 := h1.filterMap RawRow.business_front
  have h3 := h2.dedup
  unfold distinctFronts clientRows
  exact_mod_cast h3.length_eq

/-- Duplicating a row already in the table does not change the
distinct-fronts count of any client. -/
lemma distinctFronts_dup {rows : List RawRow} {r₀ : RawRow} (h : r₀ ∈ rows)
    (c : String) : distinctFronts (r₀ :: rows) c = distinctFronts rows c := by
  unfold distinctFronts clientRows
  by_cases hc : r₀.client_name = c
  · rw [List.filter_cons]
    have hcond : (r₀.client_name == c) = true := by simp [hc]
    rw [if_pos hcond]
    cases hb : r₀.business_front with
    | none => rw [List.filterMap_cons_none hb]
    | some b =>
      rw [List.filterMap_cons_some hb]
      have hmem : b ∈ (rows.filter fun r => r.client_name == c).filterMap
          RawRow.business_front := by
        apply List.mem_filterMap.mpr
        exact ⟨r₀, List.mem_filter.mpr ⟨h, hcond⟩, hb⟩
      rw [List.dedup_cons_of_mem hmem]
  · rw [List.filter_cons]
    have hcond : (r₀.client_name == c) = false := by simp [hc]
    rw [hcond]
    simp

/-- A client with a row carrying any present front value (the empty string
included) has a positive distinct-fronts count. -/
lemma distinctFronts_pos {rows : List RawRow} {c : String} {r : RawRow}
    {b : String} (hr : r ∈ rows) (hc : r.client_name = c)
    (hb : r.business_front = some b) : 1 ≤ distinctFronts rows c := by
  have hmem : b ∈ (clientRows rows c).filterMap RawRow.business_front := by
    apply List.mem_filterMap.mpr
    refine ⟨r, List.mem_filter.mpr ⟨hr, by simp [hc]⟩, hb⟩
  have hdmem : b ∈ ((clientRows rows c).filterMap RawRow.business_front).dedup :=
    List.mem_dedup.mpr hmem
  have hlen : 0 < ((clientRows rows c).filterMap RawRow.business_front).dedup.length :=
    List.length_pos.mpr (List.ne_nil_of_mem hdmem)
  unfold distinctFronts
  exact_mod_cast hlen

/-- Membership characterisation of `client_table`: a summary row is present
exactly when its client occurs in the derived table and both per-client
aggregates resolve, and then it carries those aggregate values. -/
lemma client_table_mem_iff (rows : List DerivedRow) (r : ClientRow) :
    r ∈ client_table rows ↔
      r.client_name ∈ rows.map DerivedRow.client_name ∧
      aggFrentes rows r.client_name = some r.N_frentes ∧
      aggProdutos rows r.client_name = some r.N_produtos := by
  rcases r with ⟨cn, nf, np⟩
  unfold client_table
  constructor
  · intro h
    rcases List.mem_filterMap.mp h with ⟨c, hc, hfc⟩
    cases hf : aggFrentes rows c with
    | none => rw [hf] at hfc; simp at hfc
    | some a =>
      cases hp : aggProdutos rows c with
      | none => rw [hf, hp] at hfc; simp at hfc
      | some b =>
        rw [hf, hp] at hfc
        simp only [Option.some.injEq, ClientRow.mk.injEq] at hfc
        obtain ⟨rfl, rfl, rfl⟩ := hfc
        exact ⟨List.mem_dedup.mp hc, hf, hp⟩
  · rintro ⟨hmem, hf, hp⟩
    apply List.mem_filterMap.mpr
    refine ⟨cn, List.mem_dedup.mpr hmem, ?_⟩
    rw [hf, hp]

/-- A filter-mapped key list whose hits keep their key maps to a duplicate-free
client-name column whenever the key list is duplicate-free. -/
lemma nodup_map_client_filterMap (f : String → Option ClientRow)
    (hf : ∀ c r, f c = some r → r.client_name = c) :
    ∀ keys : List String, keys.Nodup →
      ((keys.filterMap f).map ClientRow.client_name).Nodup := by
  intro keys
  induction keys with
  | nil => intro _; simp
  | cons c ks ih =>
    intro h
    rcases List.nodup_cons.mp h with ⟨hc, hks⟩
    cases hfc : f c with
    | none => rw [List.filterMap_cons_none hfc]; exact ih hks
    | some r =>
      rw [List.filterMap_cons_some hfc, List.map_cons]
      apply List.nodup_cons.mpr
      refine ⟨?_, ih hks⟩
      intro hmem
      rcases List.mem_map.mp hmem with ⟨r2, hr2, hname⟩
      rcases List.mem_filterMap.mp hr2 with ⟨c2, hc2, hfc2⟩
      have h2 : r2.client_name = c2 := hf c2 r2 hfc2
      have h1 : r.client_name = c := hf c r hfc
      have : c2 = c := by rw [← h2, hname, h1]
      exact hc (this ▸ hc2)

/-- The client-name column of `client_table` has no duplicates. -/
lemma client_table_clients_nodup (rows : List DerivedRow) :
    ((client_table rows).map ClientRow.client_name).Nodup := by
  unfold client_table
  apply nodup_map_client_filterMap
  · intro c r hr
    cases hf : aggFrentes rows c with
    | none => rw [hf] at hr; simp at hr
    | some a =>
      cases hp : aggProdutos rows c with
      | none => rw [hf, hp] at hr; simp at hr
      | some b =>
        rw [hf, hp] at hr
        simp only [Option.some.injEq] at hr
        rw [← hr]
  · exact List.nodup_dedup _

/-! Concrete demonstration data (the scenario of spec §8). -/

/-- Demo raw row: ("Acme", "Ops", missing, 5). -/
def demoRow1 : RawRow :=
  { client_name := "Acme", business_front := some "Ops",
    primary_product := none, total_products_reported := some 5 }

/-- Demo raw row: ("Acme", "Sales", missing, 5). -/
def demoRow2 : RawRow :=
  { client_name := "Acme", business_front := some "Sales",
    primary_product := none, total_products_reported := some 5 }

/-- Demo raw row: ("Beta", "Ops", missing, 3). -/
def demoRow3 : RawRow :=
  { client_name := "Beta", business_front := some "Ops",
    primary_product := none, total_products_reported := some 3 }

/-- The demo raw table of spec §8. -/
def demoRaw : List RawRow := [demoRow1, demoRow2, demoRow3]

/-- Demo derived row for "Acme"/"Ops" with the broadcast aggregates. -/
def demoDerived1 : DerivedRow :=
  { client_name := "Acme", business_front := some "Ops",
    primary_product := none, total_products_reported := some 5,
    N_frentes_calc := some 2, N_produtos_total_calc := some 5 }

/-- Demo derived row for "Acme"/"Sales" with the broadcast aggregates. -/
def demoDerived2 : DerivedRow :=
  { client_name := "Acme", business_front := some "Sales",
    primary_product := none, total_products_reported := some 5,
    N_frentes_calc := some 2, N_produtos_total_calc := some 5 }

/-- Demo derived row for a client "Gamma" whose products column is entirely
missing: its products aggregate is missing too. -/
def demoDerivedGamma : DerivedRow :=
  { client_name := "Gamma", business_front := none,
    primary_product := none, total_products_reported := none,
    N_frentes_calc := some 0, N_produtos_total_calc := none }

/-- A demo derived table with one resolvable client and one client whose
products metric cannot be resolved. -/
def demoDerivedTable : List DerivedRow :=
  [demoDerived1, demoDerived2, demoDerivedGamma]

/-- Demo client-summary table: the Client Summary of the spec §8 scenario. -/
def demoClients : List ClientRow :=
  [{ client_name := "Acme", N_frentes := 2, N_produtos := 5 },
   { client_name := "Beta", N_frentes := 1, N_produtos := 3 }]

/-! The claims. -/

/-- C1: the claim states that at process start `load_default_df` returns the
table read from the file Clientes_25-26_frentes_padronizado.xlsx, sheet
Brasil_Latam, whenever that file and sheet are readable.  In fact the
surviving definition of `load_default_df` (app.py line 21-22) raises
`NameError` on every call — `DEFAULT_FILE` and `DEFAULT_SHEET` are locals of
the first, shadowed, definition (lines 17-19) and are bound neither locally
nor at module level — so the session-state initialisation of lines 98-101
fails regardless of the Excel reader, and the named file is never opened. -/
theorem c1_default_load_name_error :
    load_default_df =
      Except.error "NameError: name DEFAULT_FILE is not defined" ∧
    ∀ readExcel : String → String → Except String RawDf,
      initSession readExcel =
        Except.error
          (LoadError.nameError "NameError: name DEFAULT_FILE is not defined") := by
  constructor
  · rfl
  · intro readExcel
    rfl

/-- C3: in the output of `ensure_metrics`, the `N_frentes_calc` of every row
equals the number of distinct non-missing `business_front` values across all rows of the client of that row, and that distinct count is unchanged under
permuting the table rows and under duplicating a row already present. -/
theorem c3_fronts_count_is_distinct_count (rows : List RawRow) :
    (∀ r ∈ ensure_metrics rows,
      r.N_frentes_calc = some (distinctFronts rows r.client_name)) ∧
    (∀ rows₂, rows.Perm rows₂ →
      ∀ c, distinctFronts rows c = distinctFronts rows₂ c) ∧
    (∀ r₀ ∈ rows, ∀ c, distinctFronts (r₀ :: rows) c = distinctFronts rows c) := by
  refine ⟨fun r hr => ensure_metrics_frentes hr,
    fun rows₂ h c => distinctFronts_perm h c,
    fun r₀ h c => distinctFronts_dup h c⟩

/-- Witness for C3 on the spec §8 scenario table: "Acme" has two distinct
fronts, the count is stable under reversing the table and under duplicating
the first row. -/
theorem c3_witness :
    demoDerived1.N_frentes_calc = some (distinctFronts demoRaw "Acme") ∧
    distinctFronts demoRaw "Acme" = distinctFronts demoRaw.reverse "Acme" ∧
    distinctFronts (demoRow1 :: demoRaw) "Acme" = distinctFronts demoRaw "Acme" :=
  ⟨(c3_fronts_count_is_distinct_count demoRaw).1 demoDerived1 (by decide),
   (c3_fronts_count_is_distinct_count demoRaw).2.1 demoRaw.reverse
     (List.reverse_perm demoRaw).symm "Acme",
   (c3_fronts_count_is_distinct_count demoRaw).2.2 demoRow1 (by decide) "Acme"⟩

/-- Counterexample to C4 as stated: the claim says an empty-string
`business_front` is treated like a missing one and is *not* counted, so a
client whose only front value is the empty string should get
`N_frentes_calc = 0`.  In the code, `nunique()` skips only `NaN` and counts
the empty string as a present value: on a one-row table whose only front is
`""` the derived count is `1`, not `0`. -/
theorem c4_counterexample :
    (ensure_metrics
      [{ client_name := "A", business_front := some "",
         primary_product := none, total_products_reported := some 1 }]).map
        DerivedRow.N_frentes_calc = [some 1] ∧
    ¬ (ensure_metrics
      [{ client_name := "A", business_front := some "",
         primary_product := none, total_products_reported := some 1 }]).map
        DerivedRow.N_frentes_calc = [some 0] := by
  constructor
  · rfl
  · decide

/-- C4 amended: the Metrics Deriver treats an empty-string `business_front`
as a *present* value, distinct from null/missing: an empty-string front
value is counted towards the distinct front count of the client (only genuinely
missing values are excluded), so a client with an empty-string front row has
`N_frentes_calc` at least 1. -/
theorem c4_amended_empty_string_is_counted (rows : List RawRow) (c : String)
    (r : RawRow) (hr : r ∈ rows) (hc : r.client_name = c)
    (hb : r.business_front = some "") :
    1 ≤ distinctFronts rows c ∧
    ∀ rd ∈ ensure_metrics rows, rd.client_name = c →
      rd.N_frentes_calc = some (distinctFronts rows c) ∧
      ∀ n, rd.N_frentes_calc = some n → 1 ≤ n := by
  have hpos := distinctFronts_pos hr hc hb
  refine ⟨hpos, ?_⟩
  intro rd hrd hrdc
  have h1 := ensure_metrics_frentes hrd
  rw [hrdc] at h1
  refine ⟨h1, ?_⟩
  intro n hn
  rw [h1] at hn
  have := Option.some.inj hn
  omega

/-- Witness for C4 amended: a client whose only front value is the empty
string has a distinct-fronts count of at least 1. -/
theorem c4_witness :
    1 ≤ distinctFronts
      [{ client_name := "A", business_front := some "",
         primary_product := none, total_products_reported := some 1 }] "A" :=
  (c4_amended_empty_string_is_counted
    [{ client_name := "A", business_front := some "",
       primary_product := none, total_products_reported := some 1 }] "A"
    { client_name := "A", business_front := some "",
      primary_product := none, total_products_reported := some 1 }
    (by decide) rfl rfl).1

/-- C5: in the output of `ensure_metrics`, any two rows with the same client
name carry identical `N_frentes_calc` and identical `N_produtos_total_calc`
values — the per-client aggregates are broadcast uniformly. -/
theorem c5_broadcast_uniform (rows : List RawRow) :
    ∀ r₁ ∈ ensure_metrics rows, ∀ r₂ ∈ ensure_metrics rows,
      r₁.client_name = r₂.client_name →
      r₁.N_frentes_calc = r₂.N_frentes_calc ∧
      r₁.N_produtos_total_calc = r₂.N_produtos_total_calc := by
  intro r₁ h₁ r₂ h₂ hc
  constructor
  · rw [ensure_metrics_frentes h₁, ensure_metrics_frentes h₂, hc]
  · rw [ensure_metrics_produtos h₁, ensure_metrics_produtos h₂, hc]

/-- Witness for C5: the two "Acme" rows of the demo table carry equal
broadcast aggregates. -/
theorem c5_witness :
    demoDerived1.N_frentes_calc = demoDerived2.N_frentes_calc ∧
    demoDerived1.N_produtos_total_calc = demoDerived2.N_produtos_total_calc :=
  c5_broadcast_uniform demoRaw demoDerived1 (by decide) demoDerived2 (by decide) rfl

/-- C2: `client_table` yields exactly one row per client whose two
per-client aggregates both resolve to a number: the client-name column has
no duplicates, a client appears iff it occurs in the derived table and both
aggregates are non-missing (clients failing coercion on either metric are
absent entirely), and every present row carries those aggregate values in
its integer metric fields — so the output has no missing values. -/
theorem c2_client_table_summary (rows : List DerivedRow) :
    ((client_table rows).map ClientRow.client_name).Nodup ∧
    (∀ c : String,
      (∃ r ∈ client_table rows, r.client_name = c) ↔
        c ∈ rows.map DerivedRow.client_name ∧
        (aggFrentes rows c).isSome ∧ (aggProdutos rows c).isSome) ∧
    (∀ r ∈ client_table rows,
      aggFrentes rows r.client_name = some r.N_frentes ∧
      aggProdutos rows r.client_name = some r.N_produtos) := by
  refine ⟨client_table_clients_nodup rows, ?_, ?_⟩
  · intro c
    constructor
    · rintro ⟨r, hr, rfl⟩
      have h := (client_table_mem_iff rows r).mp hr
      exact ⟨h.1, by rw [h.2.1]; rfl, by rw [h.2.2]; rfl⟩
    · rintro ⟨hmem, hf, hp⟩
      rcases Option.isSome_iff_exists.mp hf with ⟨nf, hnf⟩
      rcases Option.isSome_iff_exists.mp hp with ⟨np, hnp⟩
      refine ⟨{ client_name := c, N_frentes := nf, N_produtos := np }, ?_, rfl⟩
      exact (client_table_mem_iff rows _).mpr ⟨hmem, hnf, hnp⟩
  · intro r hr
    exact ((client_table_mem_iff rows r).mp hr).2

/-- Witness for C2: on the demo derived table the summary has duplicate-free
clients, and the "Acme" summary row carries the aggregate values.  ("Gamma",
whose products aggregate is missing, is absent: see the iff of the
theorem.) -/
theorem c2_witness :
    ((client_table demoDerivedTable).map ClientRow.client_name).Nodup ∧
    aggFrentes demoDerivedTable "Acme" = some 2 ∧
    aggProdutos demoDerivedTable "Acme" = some 5 :=
  ⟨(c2_client_table_summary demoDerivedTable).1,
   ((c2_client_table_summary demoDerivedTable).2.2
     { client_name := "Acme", N_frentes := 2, N_produtos := 5 } (by decide))⟩

/-- C6: `validate_df` succeeds (returning the unit value, with no other
effect in the model) exactly when every required column is present, and on
failure the raised error carries the list of *all* absent required columns:
every absent required column is named in it. -/
theorem c6_validate_df_names_every_missing (columns : List String) :
    (validate_df columns = Except.ok () ↔ ∀ c ∈ REQUIRED_COLS, c ∈ columns) ∧
    ((∃ c ∈ REQUIRED_COLS, c ∉ columns) →
      validate_df columns =
        Except.error (REQUIRED_COLS.filter (fun c => !(columns.contains c)))) ∧
    (∀ missing, validate_df columns = Except.error missing →
      ∀ c ∈ REQUIRED_COLS, c ∉ columns → c ∈ missing) := by
  have hcont : ∀ (l : List String) (s : String), (l.contains s = true) ↔ s ∈ l :=
    fun l s => List.elem_iff
  have hmem : ∀ c, c ∈ REQUIRED_COLS.filter (fun x => !(columns.contains x)) ↔
      c ∈ REQUIRED_COLS ∧ c ∉ columns := by
    intro c
    rw [List.mem_filter]
    constructor
    · rintro ⟨h1, h2⟩
      refine ⟨h1, fun hcm => ?_⟩
      rw [(hcont columns c).mpr hcm] at h2
      simp at h2
    · rintro ⟨h1, h2⟩
      refine ⟨h1, ?_⟩
      have : columns.contains c = false := by
        cases hcc : columns.contains c with
        | false => rfl
        | true => exact absurd ((hcont columns c).mp hcc) h2
      rw [this]
      rfl
  by_cases hempty : (REQUIRED_COLS.filter fun x => !(columns.contains x)) = []
  · have hv : validate_df columns = Except.ok () := by
      simp only [validate_df]
      rw [hempty]
      rfl
    refine ⟨?_, ?_, ?_⟩
    · refine ⟨fun _ => ?_, fun _ => hv⟩
      intro c hc
      by_contra hnc
      have : c ∈ REQUIRED_COLS.filter (fun x => !(columns.contains x)) :=
        (hmem c).mpr ⟨hc, hnc⟩
      rw [hempty] at this
      simp at this
    · rintro ⟨c, hc, hnc⟩
      have : c ∈ REQUIRED_COLS.filter (fun x => !(columns.contains x)) :=
        (hmem c).mpr ⟨hc, hnc⟩
      rw [hempty] at this
      simp at this
    · intro missing hv2
      rw [hv] at hv2
      exact Except.noConfusion hv2
  · have hfalse : (REQUIRED_COLS.filter fun x => !(columns.contains x)).isEmpty = false := by
      cases hl : (REQUIRED_COLS.filter fun x => !(columns.contains x)) with
      | nil => exact absurd hl hempty
      | cons a as => rfl
    have hv : validate_df columns =
        Except.error (REQUIRED_COLS.filter fun x => !(columns.contains x)) := by
      simp only [validate_df]
      rw [hfalse]
      rfl
    refine ⟨?_, fun _ => hv, ?_⟩
    · constructor
      · intro h
        rw [hv] at h
        exact Except.noConfusion h
      · intro hall
        exfalso
        apply hempty
        apply List.eq_nil_iff_forall_not_mem.mpr
        intro c hcm
        rcases (hmem c).mp hcm with ⟨h1, h2⟩
        exact h2 (hall c h1)
    · intro missing hv2 c hc hnc
      rw [hv] at hv2
      have : (REQUIRED_COLS.filter fun x => !(columns.contains x)) = missing := by
        cases hv2
        rfl
      rw [← this]
      exact (hmem c).mpr ⟨hc, hnc⟩

/-- Witness for C6: a table with only the fronts column is rejected naming
the other three required columns; the full required schema is accepted. -/
theorem c6_witness :
    validate_df ["Frente de Negócio"] =
      Except.error
        ["Empresa relacionada - Nomes", "Produto Principal", "N_produtos_total"] ∧
    validate_df REQUIRED_COLS = Except.ok () :=
  ⟨by
    have h := (c6_validate_df_names_every_missing ["Frente de Negócio"]).2.1
      ⟨"Produto Principal", by decide, by decide⟩
    rw [h]
    rfl,
   (c6_validate_df_names_every_missing REQUIRED_COLS).1.mpr (fun c hc => hc)⟩

/-- C7: on a non-empty client summary, filtering with the range seeded from
the minimum and maximum of the selected metric itself (app.py lines 147-148) and an
empty explicit client set is the identity — the inclusive `between` keeps
every row, and an empty client list skips the set filter. -/
theorem c7_range_filter_identity (clients : List ClientRow) (m : Mode)
    (lo hi : Int) (_hne : clients ≠ [])
    (hlo : metricMin m clients = some lo)
    (hhi : metricMax m clients = some hi) :
    applyFilters clients m lo hi [] = clients := by
  have hbound : ∀ r ∈ clients, inBetween lo hi (metricVal m r) = true := by
    intro r hr
    have hmm : metricVal m r ∈ clients.map (metricVal m) :=
      List.mem_map_of_mem _ hr
    have h1 : lo ≤ metricVal m r := colMin_le_of_mem hlo hmm
    have h2 : metricVal m r ≤ hi := colMax_ge_of_mem hhi hmm
    unfold inBetween
    simp [h1, h2]
  cases m with
  | frentes =>
    have heq : clients.filter (fun r => inBetween lo hi r.N_frentes) = clients :=
      List.filter_eq_self.mpr (fun r hr => hbound r hr)
    simp [applyFilters, heq]
  | produtos =>
    have heq : clients.filter (fun r => inBetween lo hi r.N_produtos) = clients :=
      List.filter_eq_self.mpr (fun r hr => hbound r hr)
    simp [applyFilters, heq]

/-- Witness for C7: filtering the demo summary by products over its full
span [3, 5] with no client list returns it unchanged. -/
theorem c7_witness :
    applyFilters demoClients Mode.produtos 3 5 [] = demoClients :=
  c7_range_filter_identity demoClients Mode.produtos 3 5 (by decide) (by decide)
    (by decide)

/-- C8: with a non-empty explicit client set the filtered result contains
exactly the summary rows whose selected metric lies in the inclusive range
AND whose client name is (by exact string match) a member of the set — the
two filters conjoin, never union. -/
theorem c8_set_filter_conjunction (clients : List ClientRow) (m : Mode)
    (lo hi : Int) (sel : List String) (hsel : sel ≠ []) (r : ClientRow) :
    r ∈ applyFilters clients m lo hi sel ↔
      r ∈ clients ∧ (lo ≤ metricVal m r ∧ metricVal m r ≤ hi) ∧
        r.client_name ∈ sel := by
  have hisem : sel.isEmpty = false := by
    cases sel with
    | nil => exact absurd rfl hsel
    | cons a as => rfl
  have hcontains : (sel.contains r.client_name = true) ↔ r.client_name ∈ sel :=
    List.elem_iff
  cases m with
  | frentes =>
    simp only [applyFilters, hisem, Bool.false_eq_true, if_false,
      List.mem_filter, inBetween, Bool.and_eq_true, decide_eq_true_eq,
      hcontains, metricVal]
    tauto
  | produtos =>
    simp only [applyFilters, hisem, Bool.false_eq_true, if_false,
      List.mem_filter, inBetween, Bool.and_eq_true, decide_eq_true_eq,
      hcontains, metricVal]
    tauto

/-- Witness for C8 (the spec §8 scenario): with metric products, range
[4, 10] and the explicit set containing only "Acme", the "Acme" row is in
the filtered result. -/
theorem c8_witness :
    ({ client_name := "Acme", N_frentes := 2, N_produtos := 5 } : ClientRow) ∈
      applyFilters demoClients Mode.produtos 4 10 ["Acme"] :=
  (c8_set_filter_conjunction demoClients Mode.produtos 4 10 ["Acme"]
    (by decide) _).mpr ⟨by decide, ⟨by decide, by decide⟩, by decide⟩

/-- C9: whenever the range-and-set filter leaves zero rows (and the page got
past the empty-summary guard), the rendered output is exactly the
user-visible warning of app.py line 200 followed by `st.stop()`: no treemap,
KPI row, chart or table effect is produced, and `renderApp` is a total
function, so no exception arises — the empty result is an outcome distinct
from the `errorStop` effect of the empty-summary guard. -/
theorem c9_empty_filter_short_circuit (df : List DerivedRow) (m : Mode)
    (lo hi : Int) (sel : List String) (topN : Nat)
    (hc : client_table df ≠ [])
    (he : applyFilters (client_table df) m lo hi sel = []) :
    renderApp df m lo hi sel topN = [Effect.warningStop emptyFilterMsg] := by
  have h1 : (client_table df).isEmpty = false := by
    cases hcl : client_table df with
    | nil => exact absurd hcl hc
    | cons a as => rfl
  simp only [renderApp, h1, he, Bool.false_eq_true, if_false,
    List.isEmpty_nil, if_true]

/-- Witness for C9: on the demo derived table (whose summary has the single
client "Acme" with 2 fronts), the fronts range [5, 9] matches nothing, and
the page renders exactly the warning. -/
theorem c9_witness :
    renderApp demoDerivedTable Mode.frentes 5 9 [] 10 =
      [Effect.warningStop emptyFilterMsg] :=
  c9_empty_filter_short_circuit demoDerivedTable Mode.frentes 5 9 [] 10
    (by decide) (by decide)

/-- C10: in both load handlers the cached dataset is assigned only after
`validate_df` succeeds on the newly loaded table, so on a failed load or a
schema failure the session state is exactly as before the attempt: the
upload handler leaves the state untouched on read error and on schema
error, any state change implies the new table loaded and validated, and the
reset handler (whose `load_default_df` call raises before anything is
assigned) always leaves the state untouched. -/
theorem c10_load_handlers_atomic (s : SessionState)
    (loaded : Except String RawDf)
    (readExcel : String → String → Except String RawDf) :
    (∀ df missing, loaded = Except.ok df →
      validate_df df.columns = Except.error missing →
      (uploadHandler loaded s).1 = s) ∧
    (∀ e, loaded = Except.error e → (uploadHandler loaded s).1 = s) ∧
    ((uploadHandler loaded s).1 ≠ s →
      ∃ df, loaded = Except.ok df ∧ validate_df df.columns = Except.ok ()) ∧
    (resetHandler readExcel s).1 = s := by
  refine ⟨?_, ?_, ?_, ?_⟩
  · rintro df missing rfl hv
    simp [uploadHandler, hv]
  · rintro e rfl
    rfl
  · intro hne
    cases hl : loaded with
    | error e =>
      rw [hl] at hne
      exact absurd rfl hne
    | ok df =>
      refine ⟨df, rfl, ?_⟩
      cases hv : validate_df df.columns with
      | error missing =>
        rw [hl] at hne
        exfalso
        apply hne
        simp [uploadHandler, hv]
      | ok u =>
        cases u
        rfl
  · rfl

/-- Witness for C10: uploading a table missing three required columns leaves
an arbitrary prior session state unchanged. -/
theorem c10_witness :
    (uploadHandler (Except.ok { columns := ["Frente de Negócio"], rows := [] })
      { df_cached := [demoDerived1], client_list := ["Acme"] }).1 =
      { df_cached := [demoDerived1], client_list := ["Acme"] } :=
  (c10_load_handlers_atomic
    { df_cached := [demoDerived1], client_list := ["Acme"] }
    (Except.ok { columns := ["Frente de Negócio"], rows := [] })
    (fun _ _ => Except.error "io")).1
    { columns := ["Frente de Negócio"], rows := [] }
    ["Empresa relacionada - Nomes", "Produto Principal", "N_produtos_total"]
    rfl rfl
